import Mathlib

/-!
Verification of the webhook-driven payment and shipment reconciliation engine
of the caterpillar_clay storefront backend.

The definitions below are a shallow embedding of the Rust source:
* `OrderStatus`, `Order`, `OrderItem` from `src/models/order.rs`
* `Product.decrement_stock` from `src/models/product.rs`
* `StripeService.verify_webhook` from `src/services/stripe.rs`
* `ShippoService.map_status_to_order_status` from `src/services/shippo.rs`
* `stripeWebhook` / `shippoWebhook` from `src/routes/webhooks.rs`

The database is modelled as explicit state (`Db`); each SQL statement is
embedded as the corresponding pure transformation of that state.  Fallibility
of the individual database calls and the presence of the optional email
service are modelled by an environment of flags (`Env`); the HMAC-SHA256
primitive, the wall clock and the JSON event decoding are abstracted as
parameters of the environment, exactly as the route code treats them as
opaque collaborators.
-/

/-- `AppError` from `src/error.rs`, restricted to the variants produced by the
code under verification. -/
inductive AppError where
  | database
  | notFound (msg : String)
  | internal (msg : String)
  | externalService (msg : String)
deriving DecidableEq, Repr

/-- `OrderStatus` from `src/models/order.rs` lines 7-16: the enum has exactly
six variants; there is no `Refunded` variant even though `webhooks.rs` line
156 and `admin/orders.rs` line 327 refer to one. -/
inductive OrderStatus where
  | pending
  | paid
  | processing
  | shipped
  | delivered
  | cancelled
deriving DecidableEq, Repr

/-- `OrderStatus::as_str` from `src/models/order.rs`. -/
def OrderStatus.as_str : OrderStatus → String
  | .pending => "pending"
  | .paid => "paid"
  | .processing => "processing"
  | .shipped => "shipped"
  | .delivered => "delivered"
  | .cancelled => "cancelled"

/-- `OrderStatus::from_str` from `src/models/order.rs` lines 30-40 (the Rust
string match rendered as an if-chain). -/
def OrderStatus.from_str (s : String) : Option OrderStatus :=
  if s = "pending" then some .pending
  else if s = "paid" then some .paid
  else if s = "processing" then some .processing
  else if s = "shipped" then some .shipped
  else if s = "delivered" then some .delivered
  else if s = "cancelled" then some .cancelled
  else none

/-- ASCII uppercasing of one character (the fragment of Rust
`char::to_uppercase` exercised by carrier status strings). -/
def asciiToUpper (c : Char) : Char :=
  if 97 ≤ c.toNat ∧ c.toNat ≤ 122 then Char.ofNat (c.toNat - 32) else c

/-- `str::to_uppercase` restricted to ASCII, as a structural map over the
characters. -/
def strToUpper (s : String) : String := ⟨s.data.map asciiToUpper⟩

/-- `ShippoService::map_status_to_order_status` from `src/services/shippo.rs`
lines 241-249 (the Rust match on `shippo_status.to_uppercase()` rendered as an
if-chain). -/
def ShippoService.map_status_to_order_status (shippo_status : String) : String :=
  let s := strToUpper shippo_status
  if s = "DELIVERED" then "delivered"
  else if s = "TRANSIT" then "shipped"
  else if s = "PRE_TRANSIT" then "processing"
  else if s = "RETURNED" ∨ s = "FAILURE" then "cancelled"
  else "shipped"

/-- The projections of `event.data.object` that `stripe_webhook` reads:
`metadata.order_id`, `payment_intent` and `status` (each via `as_str`). -/
structure StripeObject where
  metadata_order_id : Option String
  payment_intent : Option String
  status : Option String
deriving DecidableEq, Repr

/-- `StripeWebhookEvent` from `src/services/stripe.rs` lines 306-316, with
`data.object` restricted to the fields the webhook route projects out. -/
structure StripeWebhookEvent where
  event_type : String
  object : StripeObject
deriving DecidableEq, Repr

/-- Rust `str::split(sep)` on a character list: splitting the empty string
yields one empty piece, and a trailing separator yields a trailing empty
piece. -/
def splitOnChar (sep : Char) : List Char → List (List Char)
  | [] => [[]]
  | c :: cs =>
    match splitOnChar sep cs with
    | [] => if c = sep then [[], []] else [[c]]
    | p :: ps => if c = sep then [] :: p :: ps else (c :: p) :: ps

/-- Rust `str::split(sep)` as a list of strings. -/
def rustSplit (sep : Char) (s : String) : List String :=
  (splitOnChar sep s.data).map (fun cs => ⟨cs⟩)

/-- Accumulating decimal digits, failing at the first non-digit
(Rust integer `FromStr` body). -/
def digitsToNatAux : Nat → List Char → Option Nat
  | acc, [] => some acc
  | acc, c :: cs =>
    if 48 ≤ c.toNat ∧ c.toNat ≤ 57 then digitsToNatAux (acc * 10 + (c.toNat - 48)) cs
    else none

/-- A non-empty all-digit character list as a natural number. -/
def digitsToNat (cs : List Char) : Option Nat :=
  if cs.isEmpty then none else digitsToNatAux 0 cs

/-- Rust `str::parse::<i64>()`: an optional sign followed by at least one
decimal digit (the i64 overflow bound is not modelled; webhook timestamps are
far below it). -/
def parseI64 (s : String) : Option Int :=
  match s.data with
  | '+' :: rest => (digitsToNat rest).map (fun n => (n : Int))
  | '-' :: rest => (digitsToNat rest).map (fun n => -(n : Int))
  | cs => (digitsToNat cs).map (fun n => (n : Int))

/-- The header-parsing loop of `StripeService::verify_webhook`
(`src/services/stripe.rs` lines 252-264): split on `,`, split each part on
`=`, keep only two-element splits; a `t` key overwrites the timestamp with
`parse::<i64>().ok()`, a `v1` key appends a candidate signature. -/
def parseStripeSigHeader (signature : String) : Option Int × List String :=
  (rustSplit ',' signature).foldl
    (fun acc part =>
      match rustSplit '=' part with
      | [k, v] =>
        if k = "t" then (parseI64 v, acc.2)
        else if k = "v1" then (acc.1, acc.2 ++ [v])
        else acc
      | _ => acc)
    (none, [])

/-- `StripeService::verify_webhook` from `src/services/stripe.rs` lines
250-302.  `hmacHex secret msg` stands for the hex-encoded HMAC-SHA256 of
`msg` under `secret`, `now` for the wall clock, and `parseEvent` for
`serde_json::from_str::<StripeWebhookEvent>`; all three are opaque
collaborators of the verification logic. -/
def StripeService.verify_webhook (hmacHex : String → String → String)
    (secret : String) (now : Int)
    (parseEvent : String → Option StripeWebhookEvent)
    (payload signature : String) : Except AppError StripeWebhookEvent :=
  let parsed := parseStripeSigHeader signature
  match parsed.1 with
  | none => .error (.externalService "Missing timestamp in webhook signature")
  | some timestamp =>
    if parsed.2.isEmpty then
      .error (.externalService "Missing signature in webhook header")
    else
      let signed_payload := toString timestamp ++ "." ++ payload
      let expected := hmacHex secret signed_payload
      if parsed.2.any (fun sig => sig == expected) then
        if 300 < (now - timestamp).natAbs then
          .error (.externalService "Webhook timestamp too old")
        else
          match parseEvent payload with
          | some e => .ok e
          | none => .error (.externalService "Failed to parse webhook event")
      else
        .error (.externalService "Invalid webhook signature")

/-- The fields of `Order` (`src/models/order.rs` lines 53-65) read or written
by the webhook routes.  `stripe_payment_intent_id` is modelled from the spec:
the struct in `src/models/order.rs` lacks it, but `admin/orders.rs` reads
`order.stripe_payment_intent_id` and `webhooks.rs` stores it through
`Order::set_payment_intent`, so the field itself is part of the repository's
order aggregate (spec §3 `payment_reference`). -/
structure Order where
  id : String
  user_id : Option String
  status : String
  tracking_number : Option String
  stripe_payment_intent_id : Option String
deriving DecidableEq, Repr

/-- `OrderItem` from `src/models/order.rs` lines 84-91 (the fields the webhook
routes use). -/
structure OrderItem where
  order_id : String
  product_id : String
  quantity : Int
deriving DecidableEq, Repr

/-- `Product` from `src/models/product.rs` (the fields the webhook routes use). -/
structure Product where
  id : String
  stock_quantity : Int
deriving DecidableEq, Repr

/-- `User` from `src/models/user.rs` (the fields the webhook routes use). -/
structure User where
  id : String
  email : String
  name : Option String
deriving DecidableEq, Repr

/-- The database state visible to the webhook routes. -/
structure Db where
  orders : List Order
  order_items : List OrderItem
  products : List Product
  users : List User
deriving DecidableEq, Repr

/-- The failure environment of one request: which database calls succeed,
whether the email service is configured (`state.email`), and the opaque
collaborators of signature verification. -/
structure Env where
  hmac : String → String → String
  secret : String
  now : Int
  parseEvent : String → Option StripeWebhookEvent
  connectOk : Bool
  findOrderOk : Bool
  setPiOk : Bool
  updateStatusOk : Bool
  getItemsOk : Bool
  decrementOk : Bool
  incrementOk : Bool
  findUserOk : Bool
  listAllOk : Bool
  findByPiOk : Bool
  emailConfigured : Bool

/-- `Order::find_by_id` (`src/models/order.rs` lines 134-144):
`SELECT * FROM orders WHERE id = ?`. -/
def Order.find_by_id (env : Env) (db : Db) (id : String) :
    Except AppError (Option Order) :=
  if env.findOrderOk then .ok (db.orders.find? (fun o => o.id == id))
  else .error .database

/-- `Order::list_all` (`src/models/order.rs` lines 174-185). -/
def Order.list_all (env : Env) (db : Db) : Except AppError (List Order) :=
  if env.listAllOk then .ok db.orders else .error .database

/-- `Order::update_status` (`src/models/order.rs` lines 214-225):
`UPDATE orders SET status = ? WHERE id = ?` followed by `find_by_id`, with no
condition whatsoever on the previous status.  The route passes the serialized
status string. -/
def Order.update_status (env : Env) (db : Db) (id : String) (status : String) :
    Db × Except AppError Order :=
  if env.updateStatusOk then
    let db' := { db with
      orders := db.orders.map (fun o => if o.id == id then { o with status := status } else o) }
    (db',
     match db'.orders.find? (fun o => o.id == id) with
     | some o => .ok o
     | none => .error (.notFound "Order not found"))
  else (db, .error .database)

/-- `Order::get_items` (`src/models/order.rs` lines 252-263):
`SELECT * FROM order_items WHERE order_id = ?`. -/
def Order.get_items (env : Env) (db : Db) (order_id : String) :
    Except AppError (List OrderItem) :=
  if env.getItemsOk then .ok (db.order_items.filter (fun it => it.order_id == order_id))
  else .error .database

/-- `User::find_by_id` (`src/models/user.rs`). -/
def User.find_by_id (env : Env) (db : Db) (id : String) :
    Except AppError (Option User) :=
  if env.findUserOk then .ok (db.users.find? (fun u => u.id == id))
  else .error .database

/-- `Product::decrement_stock` (`src/models/product.rs` lines 337-353):
`UPDATE products SET stock_quantity = stock_quantity - ? WHERE id = ? AND
stock_quantity >= ?` followed by `find_by_id`.  The `stock_quantity >= ?`
condition means the decrement is applied only when the current stock is at
least the quantity; otherwise the row is left untouched. -/
def Product.decrement_stock (env : Env) (db : Db) (id : String) (quantity : Int) :
    Db × Except AppError Product :=
  if env.decrementOk then
    let db' := { db with
      products := db.products.map (fun p =>
        if p.id == id ∧ quantity ≤ p.stock_quantity then
          { p with stock_quantity := p.stock_quantity - quantity }
        else p) }
    (db',
     match db'.products.find? (fun p => p.id == id) with
     | some p => .ok p
     | none => .error (.notFound "Product not found"))
  else (db, .error .database)

/-- Modelled from the spec: `Product::increment_stock` is called from
`src/routes/webhooks.rs` line 165 but is absent from
`src/models/product.rs`; spec §4.4: for each item, increment the product's
stock back by the item's quantity (unconditionally). -/
def Product.increment_stock (env : Env) (db : Db) (id : String) (quantity : Int) :
    Db × Except AppError Product :=
  if env.incrementOk then
    let db' := { db with
      products := db.products.map (fun p =>
        if p.id == id then { p with stock_quantity := p.stock_quantity + quantity }
        else p) }
    (db',
     match db'.products.find? (fun p => p.id == id) with
     | some p => .ok p
     | none => .error (.notFound "Product not found"))
  else (db, .error .database)

/-- Modelled from the spec: `Order::find_by_payment_intent` is called from
`src/routes/webhooks.rs` line 153 but is absent from `src/models/order.rs`;
spec §6 `findByPaymentReference`: look the order up by its stored payment
reference. -/
def Order.find_by_payment_intent (env : Env) (db : Db) (pi : String) :
    Except AppError (Option Order) :=
  if env.findByPiOk then
    .ok (db.orders.find? (fun o => o.stripe_payment_intent_id == some pi))
  else .error .database

/-- Modelled from the spec: `Order::set_payment_intent` is called from
`src/routes/webhooks.rs` line 92 but is absent from `src/models/order.rs`;
spec §3: `payment_reference` is set at most once per order (first-write-wins);
subsequent webhook deliveries must not overwrite it with a different value
without raising an inconsistency error. -/
def Order.set_payment_intent (env : Env) (db : Db) (id : String) (pi : String) :
    Db × Except AppError Unit :=
  if env.setPiOk then
    match db.orders.find? (fun o => o.id == id) with
    | none => (db, .error (.notFound "Order not found"))
    | some o =>
      match o.stripe_payment_intent_id with
      | none =>
        ({ db with
           orders := db.orders.map (fun o' =>
             if o'.id == id then { o' with stripe_payment_intent_id := some pi } else o') },
         .ok ())
      | some existing =>
        if existing == pi then (db, .ok ())
        else (db, .error (.internal "payment_intent mismatch"))
  else (db, .error .database)

/-- The notifications the dispatcher can attempt. -/
inductive NotificationKind where
  | orderConfirmation
  | refundConfirmation
  | orderDelivered
deriving DecidableEq, Repr

/-- One attempted email send (the send itself is fire-and-forget: its result
is discarded by the routes). -/
structure Notification where
  kind : NotificationKind
  email : String
  order_id : String
deriving DecidableEq, Repr

/-- The email-dispatch pattern shared by the three webhook paths
(`src/routes/webhooks.rs` lines 110-119, 173-182, 260-271): only if the email
service is configured, the order has a `user_id`, and the user lookup returns
`Ok(Some(user))` is a send attempted; the send result itself is discarded. -/
def sendEmailIfPossible (env : Env) (db : Db) (order : Order)
    (kind : NotificationKind) : List Notification :=
  if env.emailConfigured then
    match order.user_id with
    | some uid =>
      match User.find_by_id env db uid with
      | .ok (some user) => [⟨kind, user.email, order.id⟩]
      | _ => []
    | none => []
  else []

/-- HTTP statuses returned by the two webhook routes. -/
inductive HttpStatus where
  | ok
  | badRequest
  | internalServerError
deriving DecidableEq, Repr

/-- Numeric status code. -/
def HttpStatus.code : HttpStatus → Nat
  | .ok => 200
  | .badRequest => 400
  | .internalServerError => 500

/-- The `checkout.session.completed` arm of `stripe_webhook`
(`src/routes/webhooks.rs` lines 75-133): read `metadata.order_id` and
`payment_intent`, look the order up, store the payment intent (error logged),
set the status to `paid` (unconditionally, error logged), decrement stock for
every item (results discarded), then attempt the confirmation email. -/
def handleCheckoutCompleted (env : Env) (db : Db) (event : StripeWebhookEvent) :
    Db × List Notification :=
  match event.object.metadata_order_id with
  | none => (db, [])
  | some order_id =>
    match Order.find_by_id env db order_id with
    | .ok (some order) =>
      let db1 := match event.object.payment_intent with
        | some pi => (Order.set_payment_intent env db order.id pi).1
        | none => db
      let db2 := (Order.update_status env db1 order.id "paid").1
      let db3 := match Order.get_items env db2 order.id with
        | .ok items =>
          items.foldl (fun d it => (Product.decrement_stock env d it.product_id it.quantity).1) db2
        | .error _ => db2
      (db3, sendEmailIfPossible env db3 order .orderConfirmation)
    | _ => (db, [])

/-- The `refund.created` / `refund.updated` arm of `stripe_webhook`
(`src/routes/webhooks.rs` lines 134-194): only refunds whose `status` is
`succeeded` are processed; the order is found by payment intent, its status is
set to `refunded` (unconditionally, error logged), stock is restored for every
item, then the refund email is attempted.  The status string `"refunded"` is
what `OrderStatus::Refunded.as_str()` would store (the variant is missing from
`src/models/order.rs`, see `OrderStatus`). -/
def handleRefund (env : Env) (db : Db) (event : StripeWebhookEvent) :
    Db × List Notification :=
  let refund_status := event.object.status.getD ""
  if refund_status = "succeeded" then
    match event.object.payment_intent with
    | none => (db, [])
    | some pi =>
      match Order.find_by_payment_intent env db pi with
      | .ok (some order) =>
        let db1 := (Order.update_status env db order.id "refunded").1
        let db2 := match Order.get_items env db1 order.id with
          | .ok items =>
            items.foldl (fun d it => (Product.increment_stock env d it.product_id it.quantity).1) db1
          | .error _ => db1
        (db2, sendEmailIfPossible env db2 order .refundConfirmation)
      | _ => (db, [])
  else (db, [])

/-- `stripe_webhook` from `src/routes/webhooks.rs` lines 20-201.
`signatureHeader = none` models a missing `stripe-signature` header and
`payloadUtf8 = none` a body that is not valid UTF-8; both respond 400, as does
a failed signature verification.  A failed `state.db.connect()` responds 500.
All terminal cases of the event dispatch respond 200. -/
def stripeWebhook (env : Env) (db : Db) (signatureHeader : Option String)
    (payloadUtf8 : Option String) : HttpStatus × Db × List Notification :=
  match signatureHeader with
  | none => (.badRequest, db, [])
  | some signature =>
    match payloadUtf8 with
    | none => (.badRequest, db, [])
    | some payload =>
      match StripeService.verify_webhook env.hmac env.secret env.now env.parseEvent
          payload signature with
      | .error _ => (.badRequest, db, [])
      | .ok event =>
        if env.connectOk then
          let r :=
            if event.event_type = "checkout.session.completed" then
              handleCheckoutCompleted env db event
            else if event.event_type = "refund.created" ∨ event.event_type = "refund.updated" then
              handleRefund env db event
            else (db, [])
          (.ok, r.1, r.2)
        else (.internalServerError, db, [])

/-- Delivering the same stripe webhook request `n` times in a row,
accumulating the attempted notifications. -/
def stripeWebhookIter : Nat → Env → Db → Option String → Option String →
    Db × List Notification
  | 0, _, db, _, _ => (db, [])
  | n + 1, env, db, sig, body =>
    let r := stripeWebhook env db sig body
    let rest := stripeWebhookIter n env r.2.1 sig body
    (rest.1, r.2.2 ++ rest.2)

/-- The tracking projection of a Shippo webhook event used by the route
(`src/routes/webhooks.rs` lines 228-248): a tracking number and an optional
tracking status. -/
structure TrackingStatus where
  status : String
deriving DecidableEq, Repr

/-- The `data` of a Shippo webhook event as the route reads it. -/
structure ShippoTracking where
  tracking_number : String
  tracking_status : Option TrackingStatus
deriving DecidableEq, Repr

/-- `ShippoWebhookEvent` (`src/services/shippo.rs` lines 51-56) as the route
reads it. -/
structure ShippoWebhookEvent where
  event : String
  data : ShippoTracking
deriving DecidableEq, Repr

/-- `shippo_webhook` from `src/routes/webhooks.rs` lines 203-277.  The
argument `parsed` is the result of `serde_json::from_slice` on the body: a
parse failure responds 400; after that every outcome, including a failed
database connect or order listing, responds 200.  The order is located by
scanning `Order::list_all` for a matching tracking number; the carrier status
is mapped through `ShippoService::map_status_to_order_status`, parsed back
through `OrderStatus::from_str`, and applied through `Order::update_status`
(unconditionally); a delivered status additionally attempts the delivery
email. -/
def shippoWebhook (env : Env) (db : Db)
    (parsed : Except Unit ShippoWebhookEvent) : HttpStatus × Db × List Notification :=
  match parsed with
  | .error _ => (.badRequest, db, [])
  | .ok event =>
    if env.connectOk then
      match Order.list_all env db with
      | .error _ => (.ok, db, [])
      | .ok orders =>
        match orders.find? (fun o => o.tracking_number == some event.data.tracking_number) with
        | none => (.ok, db, [])
        | some order =>
          let shippo_status := (event.data.tracking_status.map (fun s => s.status)).getD ""
          let order_status := ShippoService.map_status_to_order_status shippo_status
          match OrderStatus.from_str order_status with
          | none => (.ok, db, [])
          | some status =>
            let r := Order.update_status env db order.id status.as_str
            match r.2 with
            | .error _ => (.ok, r.1, [])
            | .ok _ =>
              if status = OrderStatus.delivered then
                (.ok, r.1, sendEmailIfPossible env r.1 order .orderDelivered)
              else (.ok, r.1, [])
    else (.ok, db, [])

/-- Checkout-completed event for order `O1` carrying payment intent `pi_1`. -/
def evC : StripeWebhookEvent := ⟨"checkout.session.completed", ⟨some "O1", some "pi_1", none⟩⟩

/-- Checkout-completed event for order `O1` carrying the different payment
intent `pi_2`. -/
def evC2 : StripeWebhookEvent := ⟨"checkout.session.completed", ⟨some "O1", some "pi_2", none⟩⟩

/-- Succeeded-refund event carrying payment intent `pi_2`. -/
def evR : StripeWebhookEvent := ⟨"refund.created", ⟨none, some "pi_2", some "succeeded"⟩⟩

/-- Shippo tracking event reporting `DELIVERED` for tracking number `TN1`. -/
def evD : ShippoWebhookEvent := ⟨"track_updated", ⟨"TN1", some ⟨"DELIVERED"⟩⟩⟩

/-- A signature header whose timestamp is `0` and whose single `v1` value is
the digest the toy HMAC of `envOk` produces. -/
def sigHdr : String := "t=0,v1=sig"

/-- An all-succeeding environment: every database call succeeds, the email
service is configured, and the verification collaborators are instantiated
with a toy HMAC (constantly `"sig"`), the clock at `0`, and a decoder mapping
the bodies `BODY`, `RBODY`, `BODY2` to the three events above. -/
def envOk : Env :=
  { hmac := fun _ _ => "sig"
    secret := "whsec"
    now := 0
    parseEvent := fun p =>
      if p = "BODY" then some evC
      else if p = "RBODY" then some evR
      else if p = "BODY2" then some evC2
      else none
    connectOk := true
    findOrderOk := true
    setPiOk := true
    updateStatusOk := true
    getItemsOk := true
    decrementOk := true
    incrementOk := true
    findUserOk := true
    listAllOk := true
    findByPiOk := true
    emailConfigured := true }

/-- The single user of the concrete scenarios. -/
def usersC : List User := [⟨"U1", "u1@example.com", some "Casey"⟩]

/-- The checkout scenario database family: one order `O1` (belonging to `U1`)
with two items, `q1` units of `P1` and `q2` units of `P2`; the stocks, the
order status and the stored payment intent are parameters. -/
def dbC (q1 q2 s1 s2 : Int) (st : String) (pi : Option String) : Db :=
  { orders := [⟨"O1", some "U1", st, none, pi⟩]
    order_items := [⟨"O1", "P1", q1⟩, ⟨"O1", "P2", q2⟩]
    products := [⟨"P1", s1⟩, ⟨"P2", s2⟩]
    users := usersC }

/-- The refund scenario database family: one order `O2` in status `refunded`
with stored payment intent `pi_2` and two items. -/
def dbR (q1 q2 s1 s2 : Int) : Db :=
  { orders := [⟨"O2", some "U1", "refunded", none, some "pi_2"⟩]
    order_items := [⟨"O2", "P1", q1⟩, ⟨"O2", "P2", q2⟩]
    products := [⟨"P1", s1⟩, ⟨"P2", s2⟩]
    users := usersC }

/-- The tracking scenario database family: one order `O1` with tracking
number `TN1`, in the parameter status. -/
def dbT (st : String) : Db :=
  { orders := [⟨"O1", some "U1", st, some "TN1", none⟩]
    order_items := []
    products := []
    users := usersC }

/-- The confirmation notification attempted for `O1` in the scenarios. -/
def confNotif : Notification := ⟨.orderConfirmation, "u1@example.com", "O1"⟩

/-- The refund notification attempted for `O2` in the scenarios. -/
def refundNotif : Notification := ⟨.refundConfirmation, "u1@example.com", "O2"⟩

/-- The delivery notification attempted for `O1` in the scenarios. -/
def deliveredNotif : Notification := ⟨.orderDelivered, "u1@example.com", "O1"⟩

/-- The all-succeeding environment except that `state.db.connect()` fails. -/
def envNoDb : Env := { envOk with connectOk := false }

/-- A toy stand-in for the HMAC-SHA256 hex digest, constantly `"aa"`, used to
exercise the control flow of `verify_webhook` at concrete inputs. -/
def hmacToy : String → String → String := fun _ _ => "aa"

/-- A decoder for which no body parses as a Stripe event. -/
def parseNone : String → Option StripeWebhookEvent := fun _ => none

/-- C8: the order status domain.  The spec lists seven statuses including
`refunded`, and `webhooks.rs` line 156 / `admin/orders.rs` line 327 construct
`OrderStatus::Refunded`, but the enum in `src/models/order.rs` has only six
variants: `from_str "refunded"` returns `None` while the other six listed
statuses round-trip. -/
theorem C8_refunded_missing_from_status_enum :
    OrderStatus.from_str "refunded" = none ∧
    OrderStatus.from_str "pending" = some .pending ∧
    OrderStatus.from_str "paid" = some .paid ∧
    OrderStatus.from_str "processing" = some .processing ∧
    OrderStatus.from_str "shipped" = some .shipped ∧
    OrderStatus.from_str "delivered" = some .delivered ∧
    OrderStatus.from_str "cancelled" = some .cancelled ∧
    OrderStatus.from_str "other" = none := by decide

/-- C9: `map_status_to_order_status` is total onto
`{delivered, shipped, processing, cancelled}` — every carrier string maps to
one of the four order statuses and `from_str` always accepts the result, the
matching is case-insensitive (via uppercasing), and unknown strings default
to `shipped`; hence there is no ignore path for unknown carrier statuses. -/
theorem C9_carrier_status_mapping_total :
    (∀ s : String,
      (OrderStatus.from_str (ShippoService.map_status_to_order_status s)).isSome = true) ∧
    ShippoService.map_status_to_order_status "DELIVERED" = "delivered" ∧
    ShippoService.map_status_to_order_status "delivered" = "delivered" ∧
    ShippoService.map_status_to_order_status "DeLiVeReD" = "delivered" ∧
    ShippoService.map_status_to_order_status "TRANSIT" = "shipped" ∧
    ShippoService.map_status_to_order_status "transit" = "shipped" ∧
    ShippoService.map_status_to_order_status "PRE_TRANSIT" = "processing" ∧
    ShippoService.map_status_to_order_status "pre_transit" = "processing" ∧
    ShippoService.map_status_to_order_status "RETURNED" = "cancelled" ∧
    ShippoService.map_status_to_order_status "FAILURE" = "cancelled" ∧
    ShippoService.map_status_to_order_status "failure" = "cancelled" ∧
    ShippoService.map_status_to_order_status "SOME_NEW_STATUS" = "shipped" ∧
    ShippoService.map_status_to_order_status "" = "shipped" := by
  refine ⟨fun s => ?_, by decide, by decide, by decide, by decide, by decide, by decide,
    by decide, by decide, by decide, by decide, by decide, by decide⟩
  unfold ShippoService.map_status_to_order_status
  generalize strToUpper s = t
  dsimp only
  split
  · decide
  · split
    · decide
    · split
      · decide
      · split
        · decide
        · decide

/-- C4 (amended): `Product::decrement_stock` updates only rows satisfying
`stock_quantity >= quantity`: when the stock suffices it is decremented by
the quantity, otherwise the update is skipped and the stock is unchanged (it
is not floored at zero); in particular stock that starts non-negative never
becomes negative. -/
theorem C4_decrement_skips_when_insufficient (env : Env) (s q : Int)
    (h : env.decrementOk = true) :
    Product.decrement_stock env ⟨[], [], [⟨"P1", s⟩], []⟩ "P1" q =
      (⟨[], [], [⟨"P1", if q ≤ s then s - q else s⟩], []⟩,
       .ok ⟨"P1", if q ≤ s then s - q else s⟩) ∧
    (0 ≤ s → 0 ≤ (if q ≤ s then s - q else s)) := by
  constructor
  · unfold Product.decrement_stock
    by_cases hq : q ≤ s <;> simp +decide [h, hq]
  · intro hs
    by_cases hq : q ≤ s <;> simp [hq] <;> omega

/-- Witness for C4 at stock 1, quantity 2: the update is skipped. -/
theorem C4_witness :
    Product.decrement_stock envOk ⟨[], [], [⟨"P1", 1⟩], []⟩ "P1" 2 =
      (⟨[], [], [⟨"P1", if (2:Int) ≤ 1 then 1 - 2 else 1⟩], []⟩,
       .ok ⟨"P1", if (2:Int) ≤ 1 then 1 - 2 else 1⟩) ∧
    (0:Int) ≤ (if (2:Int) ≤ 1 then 1 - 2 else 1) :=
  ⟨(C4_decrement_skips_when_insufficient envOk 1 2 rfl).1,
   (C4_decrement_skips_when_insufficient envOk 1 2 rfl).2 (by norm_num)⟩

/-- C4 counterexample: with stock 1 and quantity 2 the stock stays 1; the
claimed floored-at-zero decrement (resulting stock 0) does not happen. -/
theorem C4_counterexample :
    (Product.decrement_stock envOk ⟨[], [], [⟨"P1", 1⟩], []⟩ "P1" 2).1.products = [⟨"P1", 1⟩] ∧
    ¬ (Product.decrement_stock envOk ⟨[], [], [⟨"P1", 1⟩], []⟩ "P1" 2).1.products = [⟨"P1", 0⟩] := by
  decide

/-- C5 (amended): the payment webhook responds 200, 400 or 500, with the
downstream failures fully isolated: (1) the status code is always one of the
three; (2) every request whose signature header and body are present and
verify, handled while `state.db.connect()` succeeds, is acknowledged with 200
— for an arbitrary environment, i.e. however the order lookup, payment-intent
write, status update, item listing, stock updates, user lookup or email
dispatch fail; (3) 500 happens exactly when such a verified request is
handled while `state.db.connect()` fails. -/
theorem C5_stripe_status_codes (env : Env) (db : Db) (sig body : Option String) :
    ((stripeWebhook env db sig body).1.code = 200 ∨
     (stripeWebhook env db sig body).1.code = 400 ∨
     (stripeWebhook env db sig body).1.code = 500) ∧
    (∀ s p, sig = some s → body = some p →
      (∃ ev, StripeService.verify_webhook env.hmac env.secret env.now env.parseEvent p s =
        .ok ev) →
      env.connectOk = true →
      (stripeWebhook env db sig body).1.code = 200) ∧
    ((stripeWebhook env db sig body).1.code = 500 ↔
      (∃ s p ev, sig = some s ∧ body = some p ∧
        StripeService.verify_webhook env.hmac env.secret env.now env.parseEvent p s =
          .ok ev) ∧
      env.connectOk = false) := by
  cases sig with
  | none =>
    refine ⟨Or.inr (Or.inl (by simp [stripeWebhook, HttpStatus.code])), ?_, ?_⟩
    · intro s p hs; cases hs
    · constructor
      · intro h; simp [stripeWebhook, HttpStatus.code] at h
      · rintro ⟨⟨s, p, ev, hs, hp, hev⟩, hc⟩; cases hs
  | some s =>
    cases body with
    | none =>
      refine ⟨Or.inr (Or.inl (by simp [stripeWebhook, HttpStatus.code])), ?_, ?_⟩
      · intro s' p' hs hp; cases hp
      · constructor
        · intro h; simp [stripeWebhook, HttpStatus.code] at h
        · rintro ⟨⟨s', p', ev, hs, hp, hev⟩, hc⟩; cases hp
    | some p =>
      cases hv : StripeService.verify_webhook env.hmac env.secret env.now env.parseEvent p s with
      | error e =>
        refine ⟨Or.inr (Or.inl (by simp [stripeWebhook, hv, HttpStatus.code])), ?_, ?_⟩
        · rintro s' p' hs hp ⟨ev, hev⟩ hc
          injection hs with hs
          injection hp with hp
          subst hs; subst hp
          rw [hv] at hev; cases hev
        · constructor
          · intro h; simp [stripeWebhook, hv, HttpStatus.code] at h
          · rintro ⟨⟨s', p', ev, hs, hp, hev⟩, hc⟩
            injection hs with hs
            injection hp with hp
            subst hs; subst hp
            rw [hv] at hev; cases hev
      | ok ev =>
        by_cases hc : env.connectOk = true
        · refine ⟨Or.inl (by simp [stripeWebhook, hv, hc, HttpStatus.code]), ?_, ?_⟩
          · intro s' p' hs hp hex hc'
            simp [stripeWebhook, hv, hc, HttpStatus.code]
          · constructor
            · intro h; simp [stripeWebhook, hv, hc, HttpStatus.code] at h
            · rintro ⟨hex, hc'⟩; simp [hc'] at hc
        · have hcf : env.connectOk = false := by simpa using hc
          refine ⟨Or.inr (Or.inr (by simp [stripeWebhook, hv, hcf, HttpStatus.code])), ?_, ?_⟩
          · intro s' p' hs hp hex hc'
            simp [hc'] at hcf
          · constructor
            · intro h; exact ⟨⟨s, p, ev, rfl, rfl, hv⟩, hcf⟩
            · intro h; simp [stripeWebhook, hv, hcf, HttpStatus.code]

/-- Witness for C5: a verified request handled with the connection up but the
status update, the stock decrements and the user lookup all failing is still
acknowledged with 200. -/
theorem C5_witness :
    (stripeWebhook { envOk with updateStatusOk := false, decrementOk := false, findUserOk := false }
        (dbC 2 1 5 4 "pending" none) (some sigHdr) (some "BODY")).1.code = 200 :=
  (C5_stripe_status_codes
      { envOk with updateStatusOk := false, decrementOk := false, findUserOk := false }
      (dbC 2 1 5 4 "pending" none) (some sigHdr) (some "BODY")).2.1
    sigHdr "BODY" rfl rfl ⟨evC, rfl⟩ rfl

/-- C5 counterexample: a request with a verified signature while the database
connection fails is answered 500, not 200 or 400. -/
theorem C5_counterexample :
    (stripeWebhook envNoDb (dbC 2 1 5 4 "pending" none) (some sigHdr) (some "BODY")).1.code = 500 ∧
    ¬ ((stripeWebhook envNoDb (dbC 2 1 5 4 "pending" none) (some sigHdr) (some "BODY")).1.code = 200 ∨
       (stripeWebhook envNoDb (dbC 2 1 5 4 "pending" none) (some sigHdr) (some "BODY")).1.code = 400) := by
  decide

/-- C10: once the body parses as a `ShippoWebhookEvent`, the carrier endpoint
acknowledges with 200 even when the database connection or the order listing
fails; the failure is swallowed, no order state changes and no notification
is attempted, so the tracking update is silently lost. -/
theorem C10_shippo_ack_on_db_failure (env : Env) (db : Db) (e : ShippoWebhookEvent)
    (h : env.connectOk = false ∨ env.listAllOk = false) :
    shippoWebhook env db (.ok e) = (.ok, db, []) := by
  unfold shippoWebhook
  rcases h with h | h
  · simp [h]
  · by_cases hc : env.connectOk <;> simp [hc, Order.list_all, h]

/-- Witness for C10: a delivered event acknowledged while the connection is
down, leaving the database untouched. -/
theorem C10_witness :
    shippoWebhook envNoDb (dbT "pending") (.ok evD) = (.ok, dbT "pending", []) :=
  C10_shippo_ack_on_db_failure envNoDb (dbT "pending") evD (Or.inl rfl)

/-- The refund body of the scenarios passes signature verification and decodes
to the succeeded-refund event `evR`. -/
theorem verify_RBODY :
    StripeService.verify_webhook envOk.hmac envOk.secret envOk.now envOk.parseEvent
      "RBODY" sigHdr = .ok evR := rfl

/-- C2 (amended): delivering a refund-settled event for an order already in
status `refunded` is not a no-op: the status is rewritten to `refunded`
(unchanged value), each product's stock is incremented again by the item's
quantity, and another refund email is attempted — `stripe_webhook` contains
no check of the current status before restoring stock or emailing. -/
theorem C2_refund_redelivery_increments_again (q1 q2 s1 s2 : Int) :
    stripeWebhook envOk (dbR q1 q2 s1 s2) (some sigHdr) (some "RBODY") =
      (.ok, dbR q1 q2 (s1 + q1) (s2 + q2), [refundNotif]) := by
  unfold stripeWebhook
  dsimp only
  rw [verify_RBODY]
  simp +decide [handleRefund, Order.find_by_payment_intent, Order.update_status,
    Order.get_items, Product.increment_stock, sendEmailIfPossible, User.find_by_id,
    dbR, usersC, evR, refundNotif]

/-- C2 counterexample: an order already `refunded` with item quantities 2 and
1 and stocks 3 and 3 receives another refund delivery; the stocks become 5
and 4 and another refund email is attempted, contradicting the claimed
unchanged stock and absent email. -/
theorem C2_counterexample :
    (stripeWebhook envOk (dbR 2 1 3 3) (some sigHdr) (some "RBODY")).2.1.products =
      [⟨"P1", 5⟩, ⟨"P2", 4⟩] ∧
    (stripeWebhook envOk (dbR 2 1 3 3) (some sigHdr) (some "RBODY")).2.2 = [refundNotif] ∧
    ¬ ((stripeWebhook envOk (dbR 2 1 3 3) (some sigHdr) (some "RBODY")).2.1.products =
        [⟨"P1", 3⟩, ⟨"P2", 3⟩] ∧
       (stripeWebhook envOk (dbR 2 1 3 3) (some sigHdr) (some "RBODY")).2.2 = []) := by
  decide

/-- C6 (amended): delivering a `DELIVERED` tracking event for an order's
tracking number does not crash (the handler is total and responds 200), but
whatever the order's current status — including `pending`, before payment —
the status is set to `delivered` and a delivery email is attempted:
`Order::update_status` applies unconditionally, with no transition guard. -/
theorem C6_delivered_applies_from_any_status (st : String) :
    shippoWebhook envOk (dbT st) (.ok evD) =
      (.ok, dbT "delivered", [deliveredNotif]) := by
  unfold shippoWebhook
  simp +decide [Order.list_all, Order.update_status, OrderStatus.from_str,
    OrderStatus.as_str, ShippoService.map_status_to_order_status, strToUpper,
    asciiToUpper, sendEmailIfPossible, User.find_by_id, dbT, usersC, evD,
    deliveredNotif]

/-- C6 counterexample: from `pending`, the delivered tracking event changes
the order's status to `delivered`, contradicting the claimed no-op. -/
theorem C6_counterexample :
    (shippoWebhook envOk (dbT "pending") (.ok evD)).2.1.orders =
      [⟨"O1", some "U1", "delivered", some "TN1", none⟩] ∧
    ¬ ((shippoWebhook envOk (dbT "pending") (.ok evD)).2.1.orders = (dbT "pending").orders) := by
  decide

/-- The checkout body `BODY2`, carrying payment intent `pi_2`, passes
signature verification and decodes to `evC2`. -/
theorem verify_BODY2 :
    StripeService.verify_webhook envOk.hmac envOk.secret envOk.now envOk.parseEvent
      "BODY2" sigHdr = .ok evC2 := rfl

/-- C7: the payment reference is written at most once.  Whenever a stored
payment intent exists and differs from the incoming one,
`Order::set_payment_intent` leaves the database unchanged and raises the
inconsistency error; and through the full webhook pipeline, a delivery
carrying the different reference `pi_2` for an order holding `pi_1` leaves
the stored reference at `pi_1`. -/
theorem C7_payment_reference_first_write_wins :
    (∀ (env : Env) (db : Db) (oid r1 r2 : String) (o : Order),
      db.orders.find? (fun o' => o'.id == oid) = some o →
      o.stripe_payment_intent_id = some r1 → r1 ≠ r2 → env.setPiOk = true →
      Order.set_payment_intent env db oid r2 =
        (db, .error (.internal "payment_intent mismatch"))) ∧
    (∀ (q1 q2 s1 s2 : Int) (st : String),
      ((stripeWebhook envOk (dbC q1 q2 s1 s2 st (some "pi_1")) (some sigHdr)
          (some "BODY2")).2.1.orders.map (fun o => o.stripe_payment_intent_id)) =
        [some "pi_1"]) := by
  constructor
  · intro env db oid r1 r2 o hfind hstored hne henv
    unfold Order.set_payment_intent
    simp [henv, hfind, hstored, beq_eq_false_iff_ne.mpr hne]
  · intro q1 q2 s1 s2 st
    unfold stripeWebhook
    dsimp only
    rw [verify_BODY2]
    simp +decide [handleCheckoutCompleted, Order.find_by_id, Order.set_payment_intent,
      Order.update_status, Order.get_items, Product.decrement_stock, sendEmailIfPossible,
      User.find_by_id, dbC, usersC, evC2]

/-- Witness for C7: the concrete mismatching write is rejected and the
database is unchanged. -/
theorem C7_witness :
    Order.set_payment_intent envOk (dbC 2 1 5 4 "paid" (some "pi_1")) "O1" "pi_2" =
      (dbC 2 1 5 4 "paid" (some "pi_1"), .error (.internal "payment_intent mismatch")) :=
  C7_payment_reference_first_write_wins.1 envOk (dbC 2 1 5 4 "paid" (some "pi_1"))
    "O1" "pi_1" "pi_2" ⟨"O1", some "U1", "paid", none, some "pi_1"⟩
    (by decide) rfl (by decide) rfl

/-- The checkout body of the scenarios passes signature verification and
decodes to the checkout-completed event `evC`. -/
theorem verify_BODY :
    StripeService.verify_webhook envOk.hmac envOk.secret envOk.now envOk.parseEvent
      "BODY" sigHdr = .ok evC := rfl

/-- One delivery of the verified checkout webhook on the scenario database:
regardless of the order's current status, the status becomes `paid`, the
payment intent is stored (or kept, when already `pi_1`), each product's stock
is decremented by its item quantity (assuming it suffices), and one
confirmation email is attempted. -/
theorem stripeCheckoutRound (q1 q2 s1 s2 : Int) (st : String) (pi : Option String)
    (hpi : pi = none ∨ pi = some "pi_1") (h1 : q1 ≤ s1) (h2 : q2 ≤ s2) :
    stripeWebhook envOk (dbC q1 q2 s1 s2 st pi) (some sigHdr) (some "BODY") =
      (.ok, dbC q1 q2 (s1 - q1) (s2 - q2) "paid" (some "pi_1"), [confNotif]) := by
  rcases hpi with hpi | hpi <;>
    (subst hpi
     unfold stripeWebhook
     dsimp only
     rw [verify_BODY]
     simp +decide [handleCheckoutCompleted, Order.find_by_id, Order.set_payment_intent,
       Order.update_status, Order.get_items, Product.decrement_stock, sendEmailIfPossible,
       User.find_by_id, dbC, usersC, evC, confNotif, h1, h2])

/-- Iterated redelivery on the already-`paid` scenario database: `n` further
deliveries perform `n` further decrements per item and attempt `n` further
confirmation emails. -/
theorem stripeCheckoutIterPaid (q1 q2 : Int) (hq1 : 0 ≤ q1) (hq2 : 0 ≤ q2) :
    ∀ (n : Nat) (s1 s2 : Int), q1 * n ≤ s1 → q2 * n ≤ s2 →
    stripeWebhookIter n envOk (dbC q1 q2 s1 s2 "paid" (some "pi_1")) (some sigHdr) (some "BODY") =
      (dbC q1 q2 (s1 - q1 * n) (s2 - q2 * n) "paid" (some "pi_1"),
       List.replicate n confNotif) := by
  intro n
  induction n with
  | zero =>
    intro s1 s2 h1 h2
    simp [stripeWebhookIter]
  | succ m ih =>
    intro s1 s2 h1 h2
    have hc1 : ((m : Int) + 1) = ((m + 1 : Nat) : Int) := by push_cast; ring
    rw [← hc1] at h1 h2
    have hm1 : (0:Int) ≤ q1 * m := mul_nonneg hq1 (by positivity)
    have hm2 : (0:Int) ≤ q2 * m := mul_nonneg hq2 (by positivity)
    have hs1 : q1 ≤ s1 := by nlinarith
    have hs2 : q2 ≤ s2 := by nlinarith
    have ht1 : q1 * (m : Int) ≤ s1 - q1 := by nlinarith
    have ht2 : q2 * (m : Int) ≤ s2 - q2 := by nlinarith
    simp only [stripeWebhookIter]
    rw [stripeCheckoutRound q1 q2 s1 s2 "paid" (some "pi_1") (Or.inr rfl) hs1 hs2]
    dsimp only
    rw [ih (s1 - q1) (s2 - q2) ht1 ht2]
    have e1 : s1 - q1 - q1 * (m : Int) = s1 - q1 * ((m + 1 : Nat) : Int) := by push_cast; ring
    have e2 : s2 - q2 - q2 * (m : Int) = s2 - q2 * ((m + 1 : Nat) : Int) := by push_cast; ring
    rw [e1, e2]
    simp [List.replicate_succ]

/-- C1 (amended): delivering the same verified payment-completed webhook
`N ≥ 1` times for one order yields `N` stock decrements per order item (each
applied whenever the remaining stock suffices) and `N` confirmation email
attempts, not one of each: the status is set to `paid` on every delivery and
inventory mutation and notification dispatch happen on every delivery,
because `Order::update_status` carries no transition guard that could detect
a duplicate. -/
theorem C1_duplicate_payment_not_idempotent (q1 q2 s1 s2 : Int) (N : Nat)
    (hN : 1 ≤ N) (hq1 : 0 ≤ q1) (hq2 : 0 ≤ q2)
    (h1 : q1 * N ≤ s1) (h2 : q2 * N ≤ s2) :
    stripeWebhookIter N envOk (dbC q1 q2 s1 s2 "pending" none) (some sigHdr) (some "BODY") =
      (dbC q1 q2 (s1 - q1 * N) (s2 - q2 * N) "paid" (some "pi_1"),
       List.replicate N confNotif) := by
  obtain ⟨M, rfl⟩ : ∃ M, N = M + 1 := ⟨N - 1, by omega⟩
  have hc1 : ((M : Int) + 1) = ((M + 1 : Nat) : Int) := by push_cast; ring
  rw [← hc1] at h1 h2
  have hm1 : (0:Int) ≤ q1 * M := mul_nonneg hq1 (by positivity)
  have hm2 : (0:Int) ≤ q2 * M := mul_nonneg hq2 (by positivity)
  have hs1 : q1 ≤ s1 := by nlinarith
  have hs2 : q2 ≤ s2 := by nlinarith
  have ht1 : q1 * (M : Int) ≤ s1 - q1 := by nlinarith
  have ht2 : q2 * (M : Int) ≤ s2 - q2 := by nlinarith
  simp only [stripeWebhookIter]
  rw [stripeCheckoutRound q1 q2 s1 s2 "pending" none (Or.inl rfl) hs1 hs2]
  dsimp only
  rw [stripeCheckoutIterPaid q1 q2 hq1 hq2 M (s1 - q1) (s2 - q2) ht1 ht2]
  have e1 : s1 - q1 - q1 * (M : Int) = s1 - q1 * ((M + 1 : Nat) : Int) := by push_cast; ring
  have e2 : s2 - q2 - q2 * (M : Int) = s2 - q2 * ((M + 1 : Nat) : Int) := by push_cast; ring
  rw [e1, e2]
  simp [List.replicate_succ]

/-- Witness for C1: the spec's own scenario delivered twice — item quantities
2 and 1, stocks 5 and 4 — ends with stocks 1 and 2, status `paid`, and two
confirmation email attempts. -/
theorem C1_witness :
    stripeWebhookIter 2 envOk (dbC 2 1 5 4 "pending" none) (some sigHdr) (some "BODY") =
      (dbC 2 1 1 2 "paid" (some "pi_1"), [confNotif, confNotif]) := by
  rw [C1_duplicate_payment_not_idempotent 2 1 5 4 2 (by norm_num) (by norm_num)
    (by norm_num) (by norm_num) (by norm_num)]
  decide

/-- C1 counterexample: the spec's scenario (§8: item quantity 2, stock 5,
duplicate delivery) ends with stock 1 and two confirmation email attempts,
contradicting the claimed exactly-one decrement (stock 3) and exactly-one
notification. -/
theorem C1_counterexample :
    (stripeWebhookIter 2 envOk (dbC 2 2 5 5 "pending" none) (some sigHdr) (some "BODY")).1.products =
      [⟨"P1", 1⟩, ⟨"P2", 1⟩] ∧
    (stripeWebhookIter 2 envOk (dbC 2 2 5 5 "pending" none) (some sigHdr) (some "BODY")).2.length = 2 ∧
    ¬ ((stripeWebhookIter 2 envOk (dbC 2 2 5 5 "pending" none) (some sigHdr) (some "BODY")).1.products =
        [⟨"P1", 3⟩, ⟨"P2", 3⟩] ∧
       (stripeWebhookIter 2 envOk (dbC 2 2 5 5 "pending" none) (some sigHdr) (some "BODY")).2.length = 1) := by
  decide

/-- A boolean `any (· == a)` scan over strings is membership. -/
theorem anyBeqTrueIffMem (l : List String) (a : String) :
    l.any (fun x => x == a) = true ↔ a ∈ l := by
  simp [List.any_eq_true, beq_iff_eq]

/-- `verify_webhook` without an extractable timestamp: the malformed-header
error, before any use of the HMAC or of the body decoder. -/
theorem verifyTimestampNone (hmacHex : String → String → String)
    (secret : String) (now : Int) (parseEvent : String → Option StripeWebhookEvent)
    (payload signature : String)
    (hT : (parseStripeSigHeader signature).1 = none) :
    StripeService.verify_webhook hmacHex secret now parseEvent payload signature =
      .error (.externalService "Missing timestamp in webhook signature") := by
  unfold StripeService.verify_webhook
  simp [hT]

/-- `verify_webhook` with a timestamp but no `v1` values: the missing-signature
error. -/
theorem verifyNoV1 (hmacHex : String → String → String)
    (secret : String) (now : Int) (parseEvent : String → Option StripeWebhookEvent)
    (payload signature : String) (t : Int)
    (hT : (parseStripeSigHeader signature).1 = some t)
    (hE : (parseStripeSigHeader signature).2 = []) :
    StripeService.verify_webhook hmacHex secret now parseEvent payload signature =
      .error (.externalService "Missing signature in webhook header") := by
  unfold StripeService.verify_webhook
  simp [hT, hE]

/-- `verify_webhook` when no listed `v1` value matches the recomputed digest:
the signature error, independent of the body's content. -/
theorem verifySigMismatch (hmacHex : String → String → String)
    (secret : String) (now : Int) (parseEvent : String → Option StripeWebhookEvent)
    (payload signature : String) (t : Int)
    (hT : (parseStripeSigHeader signature).1 = some t)
    (hM : hmacHex secret (toString t ++ "." ++ payload) ∉ (parseStripeSigHeader signature).2)
    (hE : (parseStripeSigHeader signature).2 ≠ []) :
    StripeService.verify_webhook hmacHex secret now parseEvent payload signature =
      .error (.externalService "Invalid webhook signature") := by
  have hany : ((parseStripeSigHeader signature).2.any
      (fun sig => sig == hmacHex secret (toString t ++ "." ++ payload))) = false := by
    cases hb : (parseStripeSigHeader signature).2.any
        (fun sig => sig == hmacHex secret (toString t ++ "." ++ payload)) with
    | false => rfl
    | true => exact absurd ((anyBeqTrueIffMem _ _).mp hb) hM
  have hempty : (parseStripeSigHeader signature).2.isEmpty = false := by
    cases hl : (parseStripeSigHeader signature).2 with
    | nil => exact absurd hl hE
    | cons a l => rfl
  unfold StripeService.verify_webhook
  simp [hT, hempty, hany]

/-- `verify_webhook` with a matching signature but a timestamp outside the
300-second window: the staleness error, even though the signature matches. -/
theorem verifyStale (hmacHex : String → String → String)
    (secret : String) (now : Int) (parseEvent : String → Option StripeWebhookEvent)
    (payload signature : String) (t : Int)
    (hT : (parseStripeSigHeader signature).1 = some t)
    (hM : hmacHex secret (toString t ++ "." ++ payload) ∈ (parseStripeSigHeader signature).2)
    (hS : 300 < (now - t).natAbs) :
    StripeService.verify_webhook hmacHex secret now parseEvent payload signature =
      .error (.externalService "Webhook timestamp too old") := by
  have hempty : (parseStripeSigHeader signature).2.isEmpty = false := by
    cases hl : (parseStripeSigHeader signature).2 with
    | nil => rw [hl] at hM; cases hM
    | cons a l => rfl
  have hany : ((parseStripeSigHeader signature).2.any
      (fun sig => sig == hmacHex secret (toString t ++ "." ++ payload))) = true :=
    (anyBeqTrueIffMem _ _).mpr hM
  unfold StripeService.verify_webhook
  simp [hT, hempty, hany, hS]

/-- `verify_webhook` with a matching, fresh signature but a body the decoder
rejects: the parse error — JSON decoding happens only after all signature
checks pass. -/
theorem verifyParseFail (hmacHex : String → String → String)
    (secret : String) (now : Int) (parseEvent : String → Option StripeWebhookEvent)
    (payload signature : String) (t : Int)
    (hT : (parseStripeSigHeader signature).1 = some t)
    (hM : hmacHex secret (toString t ++ "." ++ payload) ∈ (parseStripeSigHeader signature).2)
    (hS : ¬ 300 < (now - t).natAbs)
    (hP : parseEvent payload = none) :
    StripeService.verify_webhook hmacHex secret now parseEvent payload signature =
      .error (.externalService "Failed to parse webhook event") := by
  have hempty : (parseStripeSigHeader signature).2.isEmpty = false := by
    cases hl : (parseStripeSigHeader signature).2 with
    | nil => rw [hl] at hM; cases hM
    | cons a l => rfl
  have hany : ((parseStripeSigHeader signature).2.any
      (fun sig => sig == hmacHex secret (toString t ++ "." ++ payload))) = true :=
    (anyBeqTrueIffMem _ _).mpr hM
  unfold StripeService.verify_webhook
  simp [hT, hempty, hany, hS, hP]

/-- `verify_webhook` on a verified, fresh, decodable request: success. -/
theorem verifySuccess (hmacHex : String → String → String)
    (secret : String) (now : Int) (parseEvent : String → Option StripeWebhookEvent)
    (payload signature : String) (t : Int) (ev : StripeWebhookEvent)
    (hT : (parseStripeSigHeader signature).1 = some t)
    (hM : hmacHex secret (toString t ++ "." ++ payload) ∈ (parseStripeSigHeader signature).2)
    (hS : ¬ 300 < (now - t).natAbs)
    (hP : parseEvent payload = some ev) :
    StripeService.verify_webhook hmacHex secret now parseEvent payload signature = .ok ev := by
  have hempty : (parseStripeSigHeader signature).2.isEmpty = false := by
    cases hl : (parseStripeSigHeader signature).2 with
    | nil => rw [hl] at hM; cases hM
    | cons a l => rfl
  have hany : ((parseStripeSigHeader signature).2.any
      (fun sig => sig == hmacHex secret (toString t ++ "." ++ payload))) = true :=
    (anyBeqTrueIffMem _ _).mpr hM
  unfold StripeService.verify_webhook
  simp [hT, hempty, hany, hS, hP]

/-- C3 (amended): `verify_webhook` succeeds iff the header yields a decimal
timestamp `t`, some `v1` value equals the recomputed digest of
`"{t}.{payload}"`, `|now - t| ≤ 300`, and — additionally to the claim — the
payload then decodes as a Stripe event; the individual failures map to the
corresponding errors (missing timestamp or `v1` → malformed-header errors; no
matching `v1` → signature error regardless of body content; stale timestamp →
staleness error even when the signature matches; and a verified but
undecodable body → parse error).  Every failure clause holds for an arbitrary
decoder `parseEvent`, so no decoding of the body happens before the signature
checks pass. -/
theorem C3_verify_characterization (hmacHex : String → String → String)
    (secret : String) (now : Int) (parseEvent : String → Option StripeWebhookEvent)
    (payload signature : String) :
    ((∃ ev, StripeService.verify_webhook hmacHex secret now parseEvent payload signature =
        .ok ev) ↔
      (∃ t, (parseStripeSigHeader signature).1 = some t ∧
        hmacHex secret (toString t ++ "." ++ payload) ∈ (parseStripeSigHeader signature).2 ∧
        (now - t).natAbs ≤ 300 ∧ (parseEvent payload).isSome = true)) ∧
    ((parseStripeSigHeader signature).1 = none →
      StripeService.verify_webhook hmacHex secret now parseEvent payload signature =
        .error (.externalService "Missing timestamp in webhook signature")) ∧
    (∀ t, (parseStripeSigHeader signature).1 = some t →
      (parseStripeSigHeader signature).2 = [] →
      StripeService.verify_webhook hmacHex secret now parseEvent payload signature =
        .error (.externalService "Missing signature in webhook header")) ∧
    (∀ t, (parseStripeSigHeader signature).1 = some t →
      hmacHex secret (toString t ++ "." ++ payload) ∉ (parseStripeSigHeader signature).2 →
      (parseStripeSigHeader signature).2 ≠ [] →
      StripeService.verify_webhook hmacHex secret now parseEvent payload signature =
        .error (.externalService "Invalid webhook signature")) ∧
    (∀ t, (parseStripeSigHeader signature).1 = some t →
      hmacHex secret (toString t ++ "." ++ payload) ∈ (parseStripeSigHeader signature).2 →
      300 < (now - t).natAbs →
      StripeService.verify_webhook hmacHex secret now parseEvent payload signature =
        .error (.externalService "Webhook timestamp too old")) ∧
    (∀ t, (parseStripeSigHeader signature).1 = some t →
      hmacHex secret (toString t ++ "." ++ payload) ∈ (parseStripeSigHeader signature).2 →
      ¬ 300 < (now - t).natAbs → parseEvent payload = none →
      StripeService.verify_webhook hmacHex secret now parseEvent payload signature =
        .error (.externalService "Failed to parse webhook event")) := by
  refine ⟨?_, verifyTimestampNone hmacHex secret now parseEvent payload signature,
    fun t => verifyNoV1 hmacHex secret now parseEvent payload signature t,
    fun t => verifySigMismatch hmacHex secret now parseEvent payload signature t,
    fun t => verifyStale hmacHex secret now parseEvent payload signature t,
    fun t => verifyParseFail hmacHex secret now parseEvent payload signature t⟩
  constructor
  · rintro ⟨ev, hev⟩
    rcases hT : (parseStripeSigHeader signature).1 with _ | t
    · rw [verifyTimestampNone hmacHex secret now parseEvent payload signature hT] at hev
      cases hev
    · by_cases hE : (parseStripeSigHeader signature).2 = []
      · rw [verifyNoV1 hmacHex secret now parseEvent payload signature t hT hE] at hev
        cases hev
      · by_cases hM : hmacHex secret (toString t ++ "." ++ payload) ∈
            (parseStripeSigHeader signature).2
        · by_cases hS : 300 < (now - t).natAbs
          · rw [verifyStale hmacHex secret now parseEvent payload signature t hT hM hS] at hev
            cases hev
          · rcases hP : parseEvent payload with _ | ev'
            · rw [verifyParseFail hmacHex secret now parseEvent payload signature t
                hT hM hS hP] at hev
              cases hev
            · exact ⟨t, rfl, hM, by omega, by simp [hP]⟩
        · rw [verifySigMismatch hmacHex secret now parseEvent payload signature t
            hT hM hE] at hev
          cases hev
  · rintro ⟨t, hT, hM, hS, hP⟩
    rcases hP' : parseEvent payload with _ | ev
    · rw [hP'] at hP; cases hP
    · exact ⟨ev, verifySuccess hmacHex secret now parseEvent payload signature t ev
        hT hM (by omega) hP'⟩

/-- Witness for C3: a matching but 1000-second-old signature is rejected with
the staleness error. -/
theorem C3_witness :
    StripeService.verify_webhook hmacToy "s" 1000 parseNone "x" "t=0,v1=aa" =
      .error (.externalService "Webhook timestamp too old") :=
  (C3_verify_characterization hmacToy "s" 1000 parseNone "x" "t=0,v1=aa").2.2.2.2.1
    0 (by decide) (by decide) (by decide)

/-- C3 counterexample: with the toy digest, the header `t=0,v1=aa` carries the
timestamp `0` and a `v1` equal to the digest of `0.nope`, and the timestamp
is fresh — all of the claim's success conditions hold — yet `verify_webhook`
does not succeed, because the body `nope` fails the JSON decoding performed
after the checks. -/
theorem C3_counterexample :
    ((parseStripeSigHeader "t=0,v1=aa").1 = some 0 ∧
     hmacToy "s" (toString (0:Int) ++ "." ++ "nope") ∈ (parseStripeSigHeader "t=0,v1=aa").2 ∧
     ((0:Int) - 0).natAbs ≤ 300) ∧
    ∀ ev, ¬ StripeService.verify_webhook hmacToy "s" 0 parseNone "nope" "t=0,v1=aa" =
      .ok ev := by
  refine ⟨by decide, ?_⟩
  intro ev h
  rw [verifyParseFail hmacToy "s" 0 parseNone "nope" "t=0,v1=aa" 0 (by decide) (by decide)
    (by decide) rfl] at h
  cases h
